import Mathlib

/-
Verification of the transit-scoring engine of src/app.py:
the zodiac mapper `get_zodiac_sign` (lines 116-120) and the transit
scanner `calculate_transits` (lines 122-160).

Modelling choices, stated once here:
* Angles are embedded as rationals (exact-real semantics of the float
  arithmetic the source performs).  The source function receives a
  longitude in radians and first applies `math.degrees`, a fixed positive
  scaling by 180/pi; since that factor is irrational it is not
  representable in the executable carrier, and the spec fixes degrees as
  the canonical unit, so the mapper is embedded over its degrees-equivalent
  argument (the value `math.degrees(lon_radians)` of the source).
* The Python float modulo `x % 360` is `x - 360 * floor (x / 360)` in
  exact arithmetic (result carries the sign of the divisor), embedded as
  `pymod`.  The Python `int()` conversion truncates toward zero, embedded
  as `pytrunc`.
* Calendar datetimes are embedded as integer day numbers: the scan only
  ever adds whole-day `timedelta` values, so day arithmetic is exact.
  `datetime.datetime.now()` is passed in explicitly as the `now` argument
  (the injected fixed clock of the spec).
* The ephemeris oracle (`ephem.Jupiter()/ephem.Saturn()` computed at a
  date) is a function from the day number to the pair of degrees-equivalent
  heliocentric longitudes of Jupiter and Saturn; `Option` models the
  possibility that the oracle raises, and a `none` result of the scan
  models the exception propagating out of `calculate_transits` (the local
  `data` list is discarded, so no records are returned).
-/

/-- Exact-arithmetic semantics of the Python float modulo `a % b`:
`a - b * floor (a / b)`, whose result carries the sign of the divisor. -/
def pymod (a b : ℚ) : ℚ := a - b * ⌊a / b⌋

/-- Exact-arithmetic semantics of the Python `int()` conversion:
truncation toward zero. -/
def pytrunc (x : ℚ) : ℤ := if 0 ≤ x then ⌊x⌋ else ⌈x⌉

/-- The fixed ordered zodiac name list of `get_zodiac_sign`
(src/app.py lines 118-119). -/
def zodiacs : List String :=
  ["Aries", "Taurus", "Gemini", "Cancer", "Leo", "Virgo",
   "Libra", "Scorpio", "Sagittarius", "Capricorn", "Aquarius", "Pisces"]

/-- `get_zodiac_sign` (src/app.py lines 116-120) over the degrees-equivalent
longitude (see the header comment): `degrees = lon % 360`, then the pair
`(zodiacs[int(degrees / 30)], int(degrees / 30))`.  The list lookup is
total (`getD`) because the index is proven below to lie in [0,11], the
in-bounds range where the Python indexing is defined. -/
def get_zodiac_sign (degrees_equiv : ℚ) : String × ℤ :=
  let degrees := pymod degrees_equiv 360
  (zodiacs.getD (pytrunc (degrees / 30)).toNat "", pytrunc (degrees / 30))

lemma pymod_nonneg (a : ℚ) {b : ℚ} (hb : 0 < b) : 0 ≤ pymod a b := by
  have h1 : (⌊a / b⌋ : ℚ) ≤ a / b := Int.floor_le _
  have h2 : b * (⌊a / b⌋ : ℚ) ≤ b * (a / b) :=
    mul_le_mul_of_nonneg_left h1 hb.le
  have h3 : b * (a / b) = a := by field_simp
  simp only [pymod]
  linarith

lemma pymod_lt (a : ℚ) {b : ℚ} (hb : 0 < b) : pymod a b < b := by
  have h1 : a / b < ⌊a / b⌋ + 1 := Int.lt_floor_add_one _
  have h2 : b * (a / b) < b * ((⌊a / b⌋ : ℚ) + 1) :=
    (mul_lt_mul_left hb).mpr h1
  have h3 : b * (a / b) = a := by field_simp
  simp only [pymod]
  nlinarith

lemma pymod_eq_self {a b : ℚ} (h0 : 0 ≤ a) (hb : a < b) : pymod a b = a := by
  have hbpos : 0 < b := lt_of_le_of_lt h0 hb
  have : ⌊a / b⌋ = 0 := by
    rw [Int.floor_eq_zero_iff]
    constructor
    · positivity
    · rw [div_lt_one hbpos]; exact hb
  simp [pymod, this]

/-- Concrete evaluation: degrees-equivalent 0 maps to Aries with index 0. -/
lemma gzs_zero : get_zodiac_sign 0 = ("Aries", 0) := by
  norm_num [get_zodiac_sign, pymod, pytrunc, zodiacs]

/-- Concrete evaluation: degrees-equivalent 30 maps to Taurus with index 1. -/
lemma gzs_thirty : get_zodiac_sign 30 = ("Taurus", 1) := by
  norm_num [get_zodiac_sign, pymod, pytrunc, zodiacs]

/-- Concrete evaluation: degrees-equivalent 359.999 maps to Pisces, index 11. -/
lemma gzs_edge : get_zodiac_sign ((359999 : ℚ) / 1000) = ("Pisces", 11) := by
  norm_num [get_zodiac_sign, pymod, pytrunc, zodiacs]
  rfl

/-- Concrete evaluation: a negative longitude wraps forward, -45 lands in
sector 10 (Aquarius, from 315 degrees); truncation toward zero would have
produced index -1 instead. -/
lemma gzs_neg : get_zodiac_sign (-45) = ("Aquarius", 10) := by
  norm_num [get_zodiac_sign, pymod, pytrunc, zodiacs]
  rfl

/-- Concrete evaluation: degrees-equivalent 100 maps to Cancer, index 3. -/
lemma gzs_hundred : get_zodiac_sign 100 = ("Cancer", 3) := by
  norm_num [get_zodiac_sign, pymod, pytrunc, zodiacs]
  rfl

/-- Concrete evaluation: degrees-equivalent 120 maps to Leo, index 4. -/
lemma gzs_onetwenty : get_zodiac_sign 120 = ("Leo", 4) := by
  norm_num [get_zodiac_sign, pymod, pytrunc, zodiacs]
  rfl

/-- The index returned by the mapper is the floor of the normalized
longitude divided by 30 (truncation toward zero agrees with floor on the
nonnegative normalized value). -/
lemma gzs_snd (L : ℚ) : (get_zodiac_sign L).2 = ⌊pymod L 360 / 30⌋ := by
  have h0 : (0 : ℚ) ≤ pymod L 360 / 30 := by
    have := pymod_nonneg L (b := 360) (by norm_num)
    positivity
  simp [get_zodiac_sign, pytrunc, if_pos h0]

/-- The mapper index is at least 0. -/
lemma gzs_snd_nonneg (L : ℚ) : 0 ≤ (get_zodiac_sign L).2 := by
  rw [gzs_snd]
  have h0 : (0 : ℚ) ≤ pymod L 360 / 30 := by
    have := pymod_nonneg L (b := 360) (by norm_num)
    positivity
  exact Int.floor_nonneg.mpr h0

/-- The mapper index is at most 11. -/
lemma gzs_snd_le (L : ℚ) : (get_zodiac_sign L).2 ≤ 11 := by
  rw [gzs_snd]
  have h : pymod L 360 / 30 < 12 := by
    have := pymod_lt L (b := 360) (by norm_num)
    linarith [(div_lt_iff₀ (by norm_num : (0:ℚ) < 30)).mpr (by linarith : pymod L 360 < 12 * 30)]
  have h2 : ⌊pymod L 360 / 30⌋ < (12 : ℤ) := Int.floor_lt.mpr (by exact_mod_cast h)
  omega

/-- One row of the DataFrame built by `calculate_transits`
(src/app.py lines 151-157): date, energy score, both signs, status. -/
structure TransitRecord where
  date : ℤ
  energyScore : ℤ
  jupiterSign : String
  saturnSign : String
  status : String
  deriving Repr, DecidableEq

/-- One iteration body of the scan loop (src/app.py lines 128-157), given
the two degrees-equivalent longitudes the oracle returned for the step:
score starts at 0 and status at "Neutral"; the Jupiter-return branch adds 2
(else the Saturn-return branch subtracts 2); independently the trine branch
adds 1 when `(j_idx - natal_moon_idx) % 4 == 0` (the Python integer modulo
is `Int.emod`, nonnegative for the positive divisor 4). -/
def transitStep (natal_moon_idx : ℤ) (date : ℤ) (jlon slon : ℚ) : TransitRecord :=
  let j := get_zodiac_sign jlon
  let s := get_zodiac_sign slon
  let score0 : ℤ := 0
  let status0 : String := "Neutral"
  let rs : ℤ × String :=
    if j.2 = natal_moon_idx then (score0 + 2, "Jupiter Return (Growth)")
    else if s.2 = natal_moon_idx then (score0 - 2, "Saturn Return (Pressure)")
    else (score0, status0)
  let score : ℤ := if (j.2 - natal_moon_idx) % 4 = 0 then rs.1 + 1 else rs.1
  ⟨date, score, j.1, s.1, rs.2⟩

/-- The `while current_date < end_date` loop of `calculate_transits`
(src/app.py lines 127-158): at each step the oracle is asked for the two
longitudes at `current_date`; a raising oracle (`none`) aborts the whole
loop with `none` (the Python exception propagates and the local list is
discarded); otherwise the step record is appended and the date advances by
30 days. -/
def transitLoop (oracle : ℤ → Option (ℚ × ℚ)) (natal_moon_idx : ℤ)
    (current_date end_date : ℤ) : Option (List TransitRecord) :=
  if current_date < end_date then
    match oracle current_date with
    | none => none
    | some (jlon, slon) =>
      match transitLoop oracle natal_moon_idx (current_date + 30) end_date with
      | none => none
      | some rest => some (transitStep natal_moon_idx current_date jlon slon :: rest)
  else
    some []
termination_by (end_date - current_date).toNat
decreasing_by omega

/-- `calculate_transits` (src/app.py lines 122-160).  The `start_date`
parameter is kept because the source function declares it (it is unused in
the body: the scan starts at `datetime.datetime.now()`, passed here
explicitly as `now`, and ends at `now + years*365` days). -/
def calculate_transits ( start_date : ℤ) (years : ℤ) (natal_moon_idx : ℤ)
    (now : ℤ) (oracle : ℤ → Option (ℚ × ℚ)) : Option (List TransitRecord) :=
  transitLoop oracle natal_moon_idx now (now + years * 365)

/-- Number of iterations of the scan loop over a window of `d` days:
the least `n` with `30 * n >= d`, i.e. the ceiling of `d / 30` (0 when the
window is empty). -/
def countSteps (d : ℤ) : ℕ := (d.toNat + 29) / 30

/-- The loop returns immediately with the empty list when the window is
already exhausted. -/
lemma transitLoop_stop (oracle : ℤ → Option (ℚ × ℚ)) (natal_moon_idx : ℤ)
    {current_date end_date : ℤ} (h : end_date ≤ current_date) :
    transitLoop oracle natal_moon_idx current_date end_date = some [] := by
  rw [transitLoop]
  simp [not_lt.mpr h]

/-- The records a run of the loop produces over `n` steps starting at
`current_date`, on an oracle that never fails: step `k` is scored at date
`current_date + 30 * k`.  Derived characterization of `transitLoop`, proven
equal to it in `transitLoop_some` below. -/
def scanRecords (f : ℤ → ℚ × ℚ) (natal_moon_idx : ℤ) (current_date : ℤ)
    (n : ℕ) : List TransitRecord :=
  (List.range n).map (fun (k : ℕ) =>
    transitStep natal_moon_idx (current_date + 30 * (k : ℤ))
      (f (current_date + 30 * (k : ℤ))).1 (f (current_date + 30 * (k : ℤ))).2)

lemma scanRecords_zero (f : ℤ → ℚ × ℚ) (natal_moon_idx current_date : ℤ) :
    scanRecords f natal_moon_idx current_date 0 = [] := rfl

lemma scanRecords_succ (f : ℤ → ℚ × ℚ) (natal_moon_idx current_date : ℤ) (n : ℕ) :
    scanRecords f natal_moon_idx current_date (n + 1) =
      transitStep natal_moon_idx current_date (f current_date).1 (f current_date).2 ::
        scanRecords f natal_moon_idx (current_date + 30) n := by
  simp only [scanRecords, List.range_succ_eq_map, List.map_cons, List.map_map]
  congr 1
  · norm_num
  · apply List.map_congr_left
    intro k _
    have harg : current_date + 30 * ((k : ℤ) + 1) = current_date + 30 + 30 * k := by ring
    simp only [Function.comp]
    push_cast
    rw [harg]

lemma scanRecords_length (f : ℤ → ℚ × ℚ) (natal_moon_idx current_date : ℤ) (n : ℕ) :
    (scanRecords f natal_moon_idx current_date n).length = n := by
  simp [scanRecords]

lemma scanRecords_get (f : ℤ → ℚ × ℚ) (natal_moon_idx current_date : ℤ) (n : ℕ)
    (i : ℕ) (h : i < (scanRecords f natal_moon_idx current_date n).length) :
    (scanRecords f natal_moon_idx current_date n).get ⟨i, h⟩ =
      transitStep natal_moon_idx (current_date + 30 * i)
        (f (current_date + 30 * i)).1 (f (current_date + 30 * i)).2 := by
  simp [scanRecords]

/-- On an oracle that never fails, the loop over the window
`[current_date, end_date)` returns exactly the `countSteps` records of
`scanRecords`. -/
lemma transitLoop_some (f : ℤ → ℚ × ℚ) (natal_moon_idx : ℤ) :
    ∀ (n : ℕ) (current_date end_date : ℤ), (end_date - current_date).toNat = n →
    transitLoop (fun d => some (f d)) natal_moon_idx current_date end_date =
      some (scanRecords f natal_moon_idx current_date
        (countSteps (end_date - current_date))) := by
  intro n
  induction n using Nat.strong_induction_on with
  | _ n ih =>
    intro current_date end_date hn
    by_cases h : current_date < end_date
    · have hcount : countSteps (end_date - current_date) =
          countSteps (end_date - (current_date + 30)) + 1 := by
        simp only [countSteps]; omega
      have hrec := ih (end_date - (current_date + 30)).toNat (by omega)
        (current_date + 30) end_date rfl
      rw [transitLoop]
      simp only [if_pos h, hrec, scanRecords_succ, hcount]
    · rw [transitLoop_stop _ _ (not_lt.mp h)]
      have hc : countSteps (end_date - current_date) = 0 := by
        simp only [countSteps]; omega
      rw [hc, scanRecords_zero]

/-- If the oracle fails at any step whose date falls inside the scan
window, the whole loop returns `none` (the first failing step encountered
aborts it; no prefix of records survives). -/
lemma transitLoop_none (oracle : ℤ → Option (ℚ × ℚ)) (natal_moon_idx : ℤ) :
    ∀ (n : ℕ) (current_date end_date : ℤ), (end_date - current_date).toNat = n →
    (∃ k : ℕ, current_date + 30 * (k : ℤ) < end_date ∧
      oracle (current_date + 30 * (k : ℤ)) = none) →
    transitLoop oracle natal_moon_idx current_date end_date = none := by
  intro n
  induction n using Nat.strong_induction_on with
  | _ n ih =>
    rintro current_date end_date hn ⟨k, hk, hnone⟩
    have hk0 : (0 : ℤ) ≤ 30 * (k : ℤ) := by positivity
    have h : current_date < end_date := by omega
    rw [transitLoop]
    simp only [if_pos h]
    cases hko : oracle current_date with
    | none => rfl
    | some p =>
      obtain ⟨jl, sl⟩ := p
      have hkpos : k ≠ 0 := by
        intro h0
        rw [h0] at hnone
        norm_num at hnone
        rw [hnone] at hko
        exact Option.noConfusion hko
      obtain ⟨m, hm⟩ := Nat.exists_eq_succ_of_ne_zero hkpos
      have harg : current_date + 30 * (k : ℤ) = current_date + 30 + 30 * (m : ℤ) := by
        rw [hm]; push_cast; ring
      have hrec := ih (end_date - (current_date + 30)).toNat (by omega)
        (current_date + 30) end_date rfl
        ⟨m, by rw [← harg]; exact hk, by rw [← harg]; exact hnone⟩
      rw [hrec]

/-- The date stored in a step record is the date the step was scored at. -/
lemma transitStep_date (natal_moon_idx date : ℤ) (jlon slon : ℚ) :
    (transitStep natal_moon_idx date jlon slon).date = date := rfl

/-- Closed form of the energy score of one step: the return-branch
contribution (+2 Jupiter with priority, else -2 Saturn, else 0) plus the
independent trine contribution (+1 when the index difference is 0 mod 4). -/
lemma transitStep_score (natal_moon_idx date : ℤ) (jlon slon : ℚ) :
    (transitStep natal_moon_idx date jlon slon).energyScore =
      (if (get_zodiac_sign jlon).2 = natal_moon_idx then 2
       else if (get_zodiac_sign slon).2 = natal_moon_idx then -2 else 0) +
      (if ((get_zodiac_sign jlon).2 - natal_moon_idx) % 4 = 0 then 1 else 0) := by
  simp only [transitStep]
  split_ifs <;> omega

/-- Closed form of the status label of one step. -/
lemma transitStep_status (natal_moon_idx date : ℤ) (jlon slon : ℚ) :
    (transitStep natal_moon_idx date jlon slon).status =
      (if (get_zodiac_sign jlon).2 = natal_moon_idx then "Jupiter Return (Growth)"
       else if (get_zodiac_sign slon).2 = natal_moon_idx then "Saturn Return (Pressure)"
       else "Neutral") := by
  simp only [transitStep]
  split_ifs <;> rfl

/-- Claim C5: for every finite degrees-equivalent longitude L, the mapper
normalizes L to [0,360) via modulo with negative inputs wrapping forward,
returns index = floor(normalized/30) guaranteed in [0,11], pairs the index
1:1 with the fixed ordered name list, and at sector edges maps 0 to
Aries(0), 30 to Taurus(1), 359.999 to Pisces(11) with no off-by-one
(-45 wraps forward to Aquarius(10), not to the truncation result -1). -/
theorem C5_mapper_normalization_and_bounds :
    (∀ L : ℚ, 0 ≤ pymod L 360 ∧ pymod L 360 < 360) ∧
    (∀ L : ℚ, (get_zodiac_sign L).2 = ⌊pymod L 360 / 30⌋ ∧
      0 ≤ (get_zodiac_sign L).2 ∧ (get_zodiac_sign L).2 ≤ 11 ∧
      (get_zodiac_sign L).1 = zodiacs.getD (get_zodiac_sign L).2.toNat "") ∧
    get_zodiac_sign 0 = ("Aries", 0) ∧
    get_zodiac_sign 30 = ("Taurus", 1) ∧
    get_zodiac_sign ((359999 : ℚ) / 1000) = ("Pisces", 11) ∧
    get_zodiac_sign (-45) = ("Aquarius", 10) := by
  refine ⟨fun L => ⟨pymod_nonneg L (by norm_num), pymod_lt L (by norm_num)⟩,
    fun L => ⟨gzs_snd L, gzs_snd_nonneg L, gzs_snd_le L, rfl⟩,
    gzs_zero, gzs_thirty, gzs_edge, gzs_neg⟩

/-- Claim C6: the mapper is periodic with period 360 degrees: the sign and
index of `L mod 360` equal those of `L`, for every longitude L. -/
theorem C6_mapper_periodicity :
    ∀ L : ℚ, get_zodiac_sign (pymod L 360) = get_zodiac_sign L := by
  intro L
  have h : pymod (pymod L 360) 360 = pymod L 360 :=
    pymod_eq_self (pymod_nonneg L (by norm_num)) (pymod_lt L (by norm_num))
  simp only [get_zodiac_sign, h]

/-- Claim C1, as stated, is false on the code: at a step where both the
Jupiter and the Saturn index equal the natal index (here all are 3, from
longitude 100 mapping to Cancer), the Jupiter branch does win the status,
but the record's score is 3, not 2, because the trine bonus necessarily
stacks on a Jupiter return. -/
theorem C1_counterexample :
    (get_zodiac_sign 100).2 = 3 ∧
    (transitStep 3 0 100 100).status = "Jupiter Return (Growth)" ∧
    (transitStep 3 0 100 100).energyScore = 3 ∧
    (transitStep 3 0 100 100).energyScore ≠ 2 := by
  refine ⟨by rw [gzs_hundred], ?_, ?_, ?_⟩
  · rw [transitStep_status]
    simp [gzs_hundred]
  · rw [transitStep_score]
    simp [gzs_hundred]
  · rw [transitStep_score]
    simp [gzs_hundred]

/-- Claim C1 (amended): at a scan step where the Jupiter index equals the
natal reference index — in particular when the Saturn index coincides as
well — the record's status is set by the Jupiter-return branch (else-if
priority) and its score is +3 (the +2 of the branch plus the trine bonus,
which necessarily fires), not the -2 of the Saturn branch. -/
theorem C1_jupiter_priority (natal_moon_idx date : ℤ) (jlon slon : ℚ)
    (hj : (get_zodiac_sign jlon).2 = natal_moon_idx)
    (hs : (get_zodiac_sign slon).2 = natal_moon_idx) :
    (transitStep natal_moon_idx date jlon slon).status = "Jupiter Return (Growth)" ∧
    (transitStep natal_moon_idx date jlon slon).energyScore = 3 := by
  constructor
  · rw [transitStep_status, if_pos hj]
  · rw [transitStep_score, if_pos hj, if_pos (by omega : ((get_zodiac_sign jlon).2 - natal_moon_idx) % 4 = 0)]
    norm_num

/-- Witness for the amended claim C1 at the concrete double-coincidence
step of the spec scenario: natal index 3, both longitudes 100 (Cancer). -/
theorem C1_witness :
    (transitStep 3 0 100 100).status = "Jupiter Return (Growth)" ∧
    (transitStep 3 0 100 100).energyScore = 3 :=
  C1_jupiter_priority 3 0 100 100 (by simp [gzs_hundred]) (by simp [gzs_hundred])

/-- Claim C2: at every scan step the trine bonus of +1 is added to the
score exactly when `(idxA - natal) mod 4 == 0`, independently of and
additively with the two return branches (first conjunct, a closed form of
the score); when Jupiter index = Saturn index = natal index the total is
+3 with the Growth status; and when only the trine fires the score is +1
with status Neutral. -/
theorem C2_trine_bonus_additive (natal_moon_idx date : ℤ) (jlon slon : ℚ) :
    ((transitStep natal_moon_idx date jlon slon).energyScore =
      (if (get_zodiac_sign jlon).2 = natal_moon_idx then 2
       else if (get_zodiac_sign slon).2 = natal_moon_idx then -2 else 0) +
      (if ((get_zodiac_sign jlon).2 - natal_moon_idx) % 4 = 0 then 1 else 0)) ∧
    ((get_zodiac_sign jlon).2 = natal_moon_idx →
      (get_zodiac_sign slon).2 = natal_moon_idx →
      (transitStep natal_moon_idx date jlon slon).energyScore = 3 ∧
      (transitStep natal_moon_idx date jlon slon).status = "Jupiter Return (Growth)") ∧
    ((get_zodiac_sign jlon).2 ≠ natal_moon_idx →
      (get_zodiac_sign slon).2 ≠ natal_moon_idx →
      ((get_zodiac_sign jlon).2 - natal_moon_idx) % 4 = 0 →
      (transitStep natal_moon_idx date jlon slon).energyScore = 1 ∧
      (transitStep natal_moon_idx date jlon slon).status = "Neutral") := by
  refine ⟨transitStep_score natal_moon_idx date jlon slon, ?_, ?_⟩
  · intro hj _
    rw [transitStep_score, transitStep_status, if_pos hj, if_pos hj,
      if_pos (by omega : ((get_zodiac_sign jlon).2 - natal_moon_idx) % 4 = 0)]
    norm_num
  · intro hj hs ht
    rw [transitStep_score, transitStep_status, if_neg hj, if_neg hj,
      if_neg hs, if_neg hs, if_pos ht]
    norm_num

/-- Witness for claim C2: the spec scenario natal index 0 with both bodies
at longitude 0 (Aries): additive stacking gives score 3 and the Growth
status; and the trine-only scenario natal index 0, Jupiter at 120 (Leo,
index 4), Saturn at 30 (Taurus): score 1 with status Neutral. -/
theorem C2_witness :
    ((transitStep 0 0 0 0).energyScore = 3 ∧
     (transitStep 0 0 0 0).status = "Jupiter Return (Growth)") ∧
    ((transitStep 0 0 120 30).energyScore = 1 ∧
     (transitStep 0 0 120 30).status = "Neutral") :=
  ⟨(C2_trine_bonus_additive 0 0 0 0).2.1 (by simp [gzs_zero]) (by simp [gzs_zero]),
   (C2_trine_bonus_additive 0 0 120 30).2.2 (by simp [gzs_onetwenty])
     (by simp [gzs_thirty]) (by simp [gzs_onetwenty])⟩

/-- Claim C10: every step record's energy score lies in {-2,-1,0,1,3};
whenever the Jupiter index equals the natal index the trine condition
necessarily also fires, so a Jupiter Return record always scores exactly 3,
and a score of exactly 2 is never produced. -/
theorem C10_score_range (natal_moon_idx date : ℤ) (jlon slon : ℚ) :
    ((transitStep natal_moon_idx date jlon slon).energyScore = -2 ∨
     (transitStep natal_moon_idx date jlon slon).energyScore = -1 ∨
     (transitStep natal_moon_idx date jlon slon).energyScore = 0 ∨
     (transitStep natal_moon_idx date jlon slon).energyScore = 1 ∨
     (transitStep natal_moon_idx date jlon slon).energyScore = 3) ∧
    ((get_zodiac_sign jlon).2 = natal_moon_idx →
      (transitStep natal_moon_idx date jlon slon).energyScore = 3 ∧
      (transitStep natal_moon_idx date jlon slon).status = "Jupiter Return (Growth)") ∧
    (transitStep natal_moon_idx date jlon slon).energyScore ≠ 2 := by
  refine ⟨?_, fun hj => ⟨?_, ?_⟩, ?_⟩
  · rw [transitStep_score]
    split_ifs <;> omega
  · rw [transitStep_score, if_pos hj,
      if_pos (by omega : ((get_zodiac_sign jlon).2 - natal_moon_idx) % 4 = 0)]
    norm_num
  · rw [transitStep_status, if_pos hj]
  · rw [transitStep_score]
    split_ifs with h1 h2 h3 <;> omega

/-- Witness for claim C10 at a concrete Jupiter-return step: natal index 0,
Jupiter at longitude 0 (Aries), Saturn at 30 (Taurus). -/
theorem C10_witness :
    (transitStep 0 0 0 30).energyScore = 3 ∧
    (transitStep 0 0 0 30).status = "Jupiter Return (Growth)" :=
  (C10_score_range 0 0 0 30).2.1 (by simp [gzs_zero])

/-- Claim C3: for every positive horizon and a never-failing oracle, the
scan advances by exactly 30 days per iteration starting from the current
instant and stops at `now + years*365` days, so the series has exactly
`ceil(years*365 / 30)` records (the natural-number formula
`(toNat (years*365) + 29) / 30`), with record `i` dated `now + 30*i`,
hence strictly increasing dates at constant 30-day spacing. -/
theorem C3_scan_length_and_spacing (start_date years natal_moon_idx now : ℤ)
    (f : ℤ → ℚ × ℚ) (hy : 0 < years) :
    ∃ l, calculate_transits start_date years natal_moon_idx now
        (fun d => some (f d)) = some l ∧
      l.length = ((years * 365).toNat + 29) / 30 ∧
      (∀ (i : ℕ) (h : i < l.length), (l.get ⟨i, h⟩).date = now + 30 * (i : ℤ)) ∧
      (∀ (i j : ℕ) (hi : i < l.length) (hj : j < l.length), i < j →
        (l.get ⟨i, hi⟩).date < (l.get ⟨j, hj⟩).date) := by
  have hwin : now + years * 365 - now = years * 365 := by ring
  have h := transitLoop_some f natal_moon_idx
    ((now + years * 365) - now).toNat now (now + years * 365) rfl
  rw [hwin] at h
  refine ⟨scanRecords f natal_moon_idx now (countSteps (years * 365)), h, ?_, ?_, ?_⟩
  · rw [scanRecords_length]; rfl
  · intro i hilt
    rw [scanRecords_get, transitStep_date]
  · intro i j hi hj hij
    rw [scanRecords_get, scanRecords_get, transitStep_date, transitStep_date]
    have : (i : ℤ) < (j : ℤ) := by exact_mod_cast hij
    omega

/-- Witness for claim C3: a 1-year scan from a fixed clock at day 0 on the
constant oracle yields exactly 13 = ceil(365/30) records. -/
theorem C3_witness :
    (0 : ℤ) < 1 ∧
    ∃ l, calculate_transits 0 1 0 0 (fun d => some ((0 : ℚ), (0 : ℚ))) = some l ∧
      l.length = 13 := by
  refine ⟨by decide, ?_⟩
  obtain ⟨l, h1, h2, h3, h4⟩ :=
    C3_scan_length_and_spacing 0 1 0 0 (fun x => ((0 : ℚ), (0 : ℚ))) (by decide)
  exact ⟨l, h1, by rw [h2]; rfl⟩

/-- Claim C4, as stated, is false on the code: the record is appended
before the 30-day increment, so the first record's date is the scan start
`now` itself (here day 0), not one 30-day period forward. -/
theorem C4_counterexample :
    ∃ l, calculate_transits 0 1 0 0 (fun d => some ((0 : ℚ), (0 : ℚ))) = some l ∧
      (l.map TransitRecord.date).head? = some 0 ∧ (0 : ℤ) ≠ 0 + 30 := by
  obtain ⟨l, h1, h2, h3, h4⟩ :=
    C3_scan_length_and_spacing 0 1 0 0 (fun x => ((0 : ℚ), (0 : ℚ))) (by decide)
  refine ⟨l, h1, ?_, by decide⟩
  cases l with
  | nil => exact absurd h2 (by decide)
  | cons a t =>
    have ha : a.date = 0 := by
      have := h3 0 (by simp)
      simpa using this
    simp [ha]

/-- Claim C4 (amended): for every positive horizon and never-failing
oracle, the first record's date is the scan start instant `current = now`
itself: the record for a step is appended before the 30-day increment, so
the series starts at the scan start, not one period forward. -/
theorem C4_first_record_at_start (start_date years natal_moon_idx now : ℤ)
    (f : ℤ → ℚ × ℚ) (hy : 0 < years) :
    ∃ l, calculate_transits start_date years natal_moon_idx now
        (fun d => some (f d)) = some l ∧
      (l.map TransitRecord.date).head? = some now := by
  have hwin : now + years * 365 - now = years * 365 := by ring
  have h := transitLoop_some f natal_moon_idx
    ((now + years * 365) - now).toNat now (now + years * 365) rfl
  rw [hwin] at h
  refine ⟨scanRecords f natal_moon_idx now (countSteps (years * 365)), h, ?_⟩
  have hpos : countSteps (years * 365) ≠ 0 := by
    simp only [countSteps]
    omega
  obtain ⟨m, hm⟩ := Nat.exists_eq_succ_of_ne_zero hpos
  rw [hm, scanRecords_succ]
  simp [transitStep_date]

/-- Witness for the amended claim C4: the 1-year scan from a fixed clock at
day 0 starts its series at day 0. -/
theorem C4_witness :
    (0 : ℤ) < 1 ∧
    ∃ l, calculate_transits 0 1 0 0 (fun d => some ((0 : ℚ), (0 : ℚ))) = some l ∧
      (l.map TransitRecord.date).head? = some 0 :=
  ⟨by decide, C4_first_record_at_start 0 1 0 0 (fun x => ((0 : ℚ), (0 : ℚ))) (by decide)⟩

/-- Claim C7: if the ephemeris oracle fails at any step of the scan (a step
is an index `k` below the iteration count whose date is `now + 30*k`), the
whole scan fails: `calculate_transits` returns `none`, with zero records
emitted — no step is skipped and no prefix of the series survives. -/
theorem C7_oracle_failure_fail_fast (start_date years natal_moon_idx now : ℤ)
    (oracle : ℤ → Option (ℚ × ℚ)) (k : ℕ)
    (hk : k < countSteps (years * 365))
    (hfail : oracle (now + 30 * (k : ℤ)) = none) :
    calculate_transits start_date years natal_moon_idx now oracle = none := by
  have hstep : now + 30 * (k : ℤ) < now + years * 365 := by
    simp only [countSteps] at hk
    omega
  exact transitLoop_none oracle natal_moon_idx
    ((now + years * 365) - now).toNat now (now + years * 365) rfl ⟨k, hstep, hfail⟩

/-- Witness for claim C7: an oracle that raises at the very first step of a
1-year scan makes the whole scan return `none`. -/
theorem C7_witness :
    0 < countSteps ((1 : ℤ) * 365) ∧
    calculate_transits 0 1 0 0 (fun x => (none : Option (ℚ × ℚ))) = none :=
  ⟨by decide, C7_oracle_failure_fail_fast 0 1 0 0
    (fun x => (none : Option (ℚ × ℚ))) 0 (by decide) rfl⟩

/-- Claim C8, as stated, is false on the code: `calculate_transits` applies
no validation to the horizon; with `years = 0` the while-condition fails
immediately and the scan returns an empty series as a normal success. -/
theorem C8_counterexample :
    calculate_transits 0 0 0 0 (fun d => some ((0 : ℚ), (0 : ℚ))) = some [] := by
  unfold calculate_transits
  exact transitLoop_stop _ _ (by norm_num)

/-- Claim C8 (amended): a horizon that is zero or negative is not rejected
by the scan; for every `years <= 0` the scan succeeds with the empty
series (the loop body never runs).  Input validation exists only at the
caller's UI boundary, whose slider is constrained to 1..20. -/
theorem C8_nonpositive_horizon_empty (start_date years natal_moon_idx now : ℤ)
    (oracle : ℤ → Option (ℚ × ℚ)) (hy : years ≤ 0) :
    calculate_transits start_date years natal_moon_idx now oracle = some [] := by
  unfold calculate_transits
  exact transitLoop_stop _ _ (by nlinarith)

/-- Witness for the amended claim C8 at the concrete horizon 0 on an
always-raising oracle (the oracle is never consulted). -/
theorem C8_witness :
    (0 : ℤ) ≤ 0 ∧
    calculate_transits 7 0 3 100 (fun x => (none : Option (ℚ × ℚ))) = some [] :=
  ⟨by decide, C8_nonpositive_horizon_empty 7 0 3 100
    (fun x => (none : Option (ℚ × ℚ))) (by decide)⟩

/-- Claim C9: the scan is a pure function of the fixed clock `now`, the
horizon, the natal index and the oracle responses (so two runs with
identical such inputs are definitionally identical), and its output is
independent of the supplied birth/start date: the `start_date` argument is
never used, the window is always `now` to `now + years*365`. -/
theorem C9_start_date_independence (sd1 sd2 years natal_moon_idx now : ℤ)
    (oracle : ℤ → Option (ℚ × ℚ)) :
    calculate_transits sd1 years natal_moon_idx now oracle =
      calculate_transits sd2 years natal_moon_idx now oracle := rfl
